import Mathlib

/-!
# Verification of the config-rollout dummy controller

Shallow embedding of `src/dummy-controller.py` (a single-file HTTP stub
that validates configuration payloads, simulates dispatch to devices and
reports rollout status), together with proofs of the specified properties.

Randomness in the source (`random.random()`, `random.randint`,
`random.choice`) is modelled by passing the draw explicitly:
`random.random()` becomes a rational draw `q` compared against the
hard-coded pass rate, `random.randint lo hi` becomes `lo + draw % (hi-lo+1)`
for an arbitrary natural draw, and `random.choice l` picks index
`draw % l.length`.  Exceptions inside the `try` block of a handler (unparsable
JSON, missing Content-Length, wrongly-typed fields) are modelled by the
handler receiving `Except String P`: the `.error` case is exactly the
`except Exception` path of the Python code.
-/

namespace RolloutPoc

/-- JSON scalar values appearing in the controller response bodies. -/
inductive JValue where
  | str (s : String)
  | int (n : ℤ)
  | rat (q : ℚ)
deriving DecidableEq, Repr

/-- An HTTP response as assembled by the handler: status code, headers
sent via `send_header`, and an optional JSON-object body written to
`wfile` (`none` when nothing is written, as on the 404 path). -/
structure HttpResponse where
  code : Nat
  headers : List (String × String)
  body : Option (List (String × JValue))
deriving DecidableEq, Repr

/-- The `Content-type: application/json` header every handler sends. -/
def ctJson : String × String := ("Content-type", "application/json")

/-- The 404 branch: `send_response(404); end_headers()` and no body. -/
def notFound : HttpResponse := { code := 404, headers := [], body := none }

/-- The shared `except Exception` branch of each POST handler:
500 with `{"status":"error","message":str(e)}`. -/
def errorResponse (msg : String) : HttpResponse :=
  { code := 500
    headers := [ctJson]
    body := some [("status", .str "error"), ("message", .str msg)] }

/-- A parsed `/validate` request body: the handler only reads
`configVersion` via `data.get` with a default, so the payload is its (string-typed or
absent) `configVersion` field. -/
structure ValidatePayload where
  configVersion : Option String
deriving DecidableEq, Repr

/-- The `config` object of a `/send-config` body: the handler only reads
`name` via `config_data.get`, defaulted to `"unknown"`. -/
structure ConfigData where
  name : Option String
deriving DecidableEq, Repr

/-- A parsed `/send-config` request body: `deviceId` and `config`, each
possibly absent (then defaulted to `"unknown"` resp. the empty object). -/
structure SendConfigPayload where
  deviceId : Option String
  config : Option ConfigData
deriving DecidableEq, Repr

/-- A parsed `/rollout-status` request body. -/
structure RolloutStatusPayload where
  rolloutId : Option String
deriving DecidableEq, Repr

/-- `random.randint lo hi` (inclusive bounds) driven by an explicit draw. -/
def randint (lo hi draw : Nat) : Nat := lo + draw % (hi - lo + 1)

/-- `random.choice` on a list of strings, driven by an explicit draw. -/
def pyChoice (l : List String) (draw : Nat) : String :=
  l.getD (draw % l.length) ""

/-- The acceptance policy of `validate_config`:
`random.random() < 0.9` with the draw made explicit. -/
def acceptancePolicy (q : ℚ) : Bool := decide (q < 9/10)

/-- The delivery policy of `send_config_to_device`:
`random.random() < 0.95` with the draw made explicit. -/
def deliveryPolicy (q : ℚ) : Bool := decide (q < 95/100)

/-- `validate_config(self, data)`: fails when
`config_version` (defaulted to the empty string) is falsy or shorter than 3
characters, otherwise returns the acceptance-policy draw. -/
def validate_config (data : ValidatePayload) (q : ℚ) : Bool :=
  let config_version := data.configVersion.getD ""
  if config_version = "" ∨ config_version.length < 3 then false
  else acceptancePolicy q

/-- `send_config_to_device(self, device_id, config_data)`: the outcome is
the delivery-policy draw; `device_id` and `config_data` are only logged. -/
def send_config_to_device (device_id : String) (config_data : ConfigData)
    (q : ℚ) : Bool :=
  let _ := device_id
  let _ := config_data
  deliveryPolicy q

/-- The three phase strings `random.choice` picks among in
`get_rollout_status`. -/
def phaseChoices : List String := ["Progressing", "Completed", "Paused"]

/-- `get_rollout_status(self, rollout_id)`: synthesizes a fresh record
from three random draws. -/
def get_rollout_status (rollout_id : String)
    (phaseDraw stepDraw devDraw : Nat) : List (String × JValue) :=
  [("rolloutId", .str rollout_id),
   ("phase", .str (pyChoice phaseChoices phaseDraw)),
   ("currentStep", .int (randint 1 3 stepDraw)),
   ("totalSteps", .int 3),
   ("completedDevices", .int (randint 1 10 devDraw)),
   ("totalDevices", .int 10),
   ("message", .str ("Rollout " ++ rollout_id ++ " is progressing"))]

/-- `handle_validation(self)`: parse the body, run `validate_config`,
answer 200/400; any exception in the `try` block yields the 500 error
shape. -/
def handle_validation (body : Except String ValidatePayload) (q : ℚ) :
    HttpResponse :=
  match body with
  | .error e => errorResponse e
  | .ok data =>
    if validate_config data q then
      { code := 200
        headers := [ctJson]
        body := some [("status", .str "success"),
                      ("message", .str "Configuration validation passed"),
                      ("configVersion", .str (data.configVersion.getD "unknown"))] }
    else
      { code := 400
        headers := [ctJson]
        body := some [("status", .str "failure"),
                      ("message", .str "Configuration validation failed"),
                      ("configVersion", .str (data.configVersion.getD "unknown"))] }

/-- `handle_send_config(self)`: parse the body, run
`send_config_to_device`, answer 200/500; exceptions yield the 500 error
shape. -/
def handle_send_config (body : Except String SendConfigPayload) (q : ℚ) :
    HttpResponse :=
  match body with
  | .error e => errorResponse e
  | .ok data =>
    let device_id := data.deviceId.getD "unknown"
    let config_data := data.config.getD ⟨none⟩
    if send_config_to_device device_id config_data q then
      { code := 200
        headers := [ctJson]
        body := some [("status", .str "success"),
                      ("message", .str ("Configuration sent to device " ++ device_id)),
                      ("deviceId", .str device_id),
                      ("configName", .str (config_data.name.getD "unknown"))] }
    else
      { code := 500
        headers := [ctJson]
        body := some [("status", .str "failure"),
                      ("message", .str ("Failed to send config to device " ++ device_id)),
                      ("deviceId", .str device_id)] }

/-- `handle_rollout_status(self)`: parse the body, synthesize a status
record, answer 200 with the record as the body; exceptions yield the 500
error shape. -/
def handle_rollout_status (body : Except String RolloutStatusPayload)
    (phaseDraw stepDraw devDraw : Nat) : HttpResponse :=
  match body with
  | .error e => errorResponse e
  | .ok data =>
    let rollout_id := data.rolloutId.getD "unknown"
    { code := 200
      headers := [ctJson]
      body := some (get_rollout_status rollout_id phaseDraw stepDraw devDraw) }

/-- HTTP methods the handler class implements (`do_GET`, `do_POST`). -/
inductive Method where
  | GET
  | POST
deriving DecidableEq, Repr

/-- The random draws a single request may consume. -/
structure Draws where
  accept : ℚ
  deliver : ℚ
  phaseDraw : Nat
  stepDraw : Nat
  devDraw : Nat
  cpu : ℚ
  mem : ℚ
  respTime : ℚ
  errRate : ℚ
  throughput : ℚ
  activeRollouts : Nat
  devicesConfigured : Nat
deriving DecidableEq, Repr

/-- `do_GET(self)`: `/health` and `/metrics` answer 200 JSON, anything
else 404. -/
def do_GET (path : String) (d : Draws) : HttpResponse :=
  if path = "/health" then
    { code := 200
      headers := [ctJson]
      body := some [("status", .str "healthy"),
                    ("service", .str "config-controller")] }
  else if path = "/metrics" then
    { code := 200
      headers := [ctJson]
      body := some [("cpu_usage", .rat d.cpu),
                    ("memory_usage", .rat d.mem),
                    ("response_time", .rat d.respTime),
                    ("error_rate", .rat d.errRate),
                    ("throughput", .rat d.throughput),
                    ("active_rollouts", .int (randint 1 10 d.activeRollouts)),
                    ("devices_configured", .int (randint 50 200 d.devicesConfigured))] }
  else notFound

/-- `do_POST(self)`: dispatch on the path to the three handlers,
anything else 404.  The three `Except` arguments are the outcome of
reading and parsing the request body as each handler would see it. -/
def do_POST (path : String) (vb : Except String ValidatePayload)
    (sb : Except String SendConfigPayload)
    (rb : Except String RolloutStatusPayload) (d : Draws) : HttpResponse :=
  if path = "/validate" then handle_validation vb d.accept
  else if path = "/send-config" then handle_send_config sb d.deliver
  else if path = "/rollout-status" then handle_rollout_status rb d.phaseDraw d.stepDraw d.devDraw
  else notFound

/-- One request against the server: route by method. -/
def handle_request (m : Method) (path : String)
    (vb : Except String ValidatePayload)
    (sb : Except String SendConfigPayload)
    (rb : Except String RolloutStatusPayload) (d : Draws) : HttpResponse :=
  match m with
  | .GET => do_GET path d
  | .POST => do_POST path vb sb rb d

/-- The recognized (method, path) endpoints of the server. -/
def recognized (m : Method) (path : String) : Prop :=
  (m = .GET ∧ (path = "/health" ∨ path = "/metrics")) ∨
  (m = .POST ∧ (path = "/validate" ∨ path = "/send-config" ∨ path = "/rollout-status"))

instance (m : Method) (path : String) : Decidable (recognized m path) := by
  unfold recognized; infer_instance

/-- The `status` field of a response body, if any. -/
def statusOf (r : HttpResponse) : Option JValue :=
  (r.body.getD []).lookup "status"

/-! ## The RolloutTracker extension point

`recordDispatch` is not in the source: the spec (§4.3) introduces it as an
extension point "not exercised by the literal webhook surface", so it is
modelled from the words of the spec below. -/

/-- Rollout phases of the RolloutRecord of the spec. -/
inductive Phase where
  | Progressing
  | Paused
  | Completed
deriving DecidableEq, Repr

/-- The RolloutRecord of the spec: rolloutId, phase, step counters and device
counters. -/
structure RolloutRecord where
  rolloutId : String
  phase : Phase
  currentStep : Nat
  totalSteps : Nat
  completedDevices : Nat
  totalDevices : Nat
deriving DecidableEq, Repr

/-- The DispatchResult of the spec: per-device delivery outcome. -/
structure DispatchResult where
  deviceId : String
  delivered : Bool
  configName : String
deriving DecidableEq, Repr

/-- Modelled from the spec: the "per-step threshold" of completed devices
at which `recordDispatch` advances `currentStep` — devices are spread
evenly over the steps, so step `s` is exhausted once
`s * totalDevices / totalSteps` devices are done. -/
def stepThreshold (r : RolloutRecord) : Nat :=
  r.currentStep * r.totalDevices / r.totalSteps

/-- Modelled from the spec: `recordDispatch(rolloutId, DispatchResult)` is
absent from the source (§4.3 calls it an extension point).  Per the spec it
"increments completedDevices on success; advances currentStep when
completedDevices reaches a per-step threshold", transitions to Completed
only "when currentStep == totalSteps with all devices accounted for"
(state-machine note of §4.3), never decreases currentStep, and Completed
is terminal (the Progressing → Completed transition is monotonic).  The
Paused transition is driven by an external signal the spec leaves out of
scope, so it is not part of this operation. -/
def recordDispatch (r : RolloutRecord) (d : DispatchResult) : RolloutRecord :=
  if r.phase = .Completed then r
  else
    let cd := if d.delivered then r.completedDevices + 1 else r.completedDevices
    if r.currentStep = r.totalSteps ∧ r.totalDevices ≤ cd then
      { r with completedDevices := cd, phase := .Completed }
    else if stepThreshold r ≤ cd ∧ r.currentStep < r.totalSteps then
      { r with completedDevices := cd, currentStep := r.currentStep + 1 }
    else
      { r with completedDevices := cd }

/-- Well-formedness of a tracker record: the step counter is in range and
a Completed record has exhausted its steps with all devices accounted. -/
def TrackerInv (r : RolloutRecord) : Prop :=
  r.currentStep ≤ r.totalSteps ∧
  (r.phase = .Completed → r.currentStep = r.totalSteps ∧ r.totalDevices ≤ r.completedDevices)

instance (r : RolloutRecord) : Decidable (TrackerInv r) := by
  unfold TrackerInv; infer_instance

/-! ## Helper lemmas -/

theorem randint_lower (lo hi draw : Nat) : lo ≤ randint lo hi draw := by
  unfold randint; omega

theorem randint_upper (lo hi draw : Nat) (h : lo ≤ hi) :
    randint lo hi draw ≤ hi := by
  unfold randint
  have hm : draw % (hi - lo + 1) < hi - lo + 1 := Nat.mod_lt draw (by omega)
  omega

theorem pyChoice_phase_mem (draw : Nat) :
    pyChoice phaseChoices draw ∈ phaseChoices := by
  have h3 : draw % 3 = 0 ∨ draw % 3 = 1 ∨ draw % 3 = 2 := by omega
  rcases h3 with h | h | h <;> simp [pyChoice, phaseChoices, h]

theorem handle_validation_headers (b : Except String ValidatePayload) (q : ℚ) :
    (handle_validation b q).headers = [ctJson] := by
  cases b with
  | error e => rfl
  | ok data =>
    by_cases h : validate_config data q <;> simp [handle_validation, h]

theorem handle_send_config_headers (b : Except String SendConfigPayload) (q : ℚ) :
    (handle_send_config b q).headers = [ctJson] := by
  cases b with
  | error e => rfl
  | ok data =>
    by_cases h : send_config_to_device (data.deviceId.getD "unknown")
        (data.config.getD ⟨none⟩) q <;>
      simp [handle_send_config, h]

theorem handle_rollout_status_headers (b : Except String RolloutStatusPayload)
    (pd sd dd : Nat) : (handle_rollout_status b pd sd dd).headers = [ctJson] := by
  cases b with
  | error e => rfl
  | ok data => rfl

/-! ## Claim theorems -/

/-- C1: for every request body whose `configVersion` is absent, empty or
shorter than 3 characters, `/validate` answers 400 with status
`"failure"`, message `"Configuration validation failed"` and the
`configVersion` of the payload (defaulted to `"unknown"` when absent) echoed,
for every acceptance-policy draw. -/
theorem validate_shortVersion_alwaysFails (data : ValidatePayload) (q : ℚ)
    (h : (data.configVersion.getD "").length < 3) :
    validate_config data q = false ∧
    handle_validation (.ok data) q =
      { code := 400
        headers := [ctJson]
        body := some [("status", .str "failure"),
                      ("message", .str "Configuration validation failed"),
                      ("configVersion", .str (data.configVersion.getD "unknown"))] } := by
  have hv : validate_config data q = false := by
    unfold validate_config
    exact if_pos (Or.inr h)
  exact ⟨hv, by simp [handle_validation, hv]⟩

/-- Witness for C1: the end-to-end scenario `{"configVersion":"x"}`. -/
theorem validate_shortVersion_alwaysFails_witness :
    validate_config ⟨some "x"⟩ (1/2) = false ∧
    handle_validation (.ok ⟨some "x"⟩) (1/2) =
      { code := 400
        headers := [ctJson]
        body := some [("status", .str "failure"),
                      ("message", .str "Configuration validation failed"),
                      ("configVersion", .str "x")] } :=
  validate_shortVersion_alwaysFails ⟨some "x"⟩ (1/2) (by decide)

/-- C5: for every payload whose `configVersion` has length ≥ 3, the
verdict of `validate_config` is exactly the result of the acceptance policy,
and the HTTP outcome follows it: policy true gives the 200 success
response, policy false the 400 failure response. -/
theorem validate_longVersion_matchesPolicy (s : String) (q : ℚ)
    (h : 3 ≤ s.length) :
    validate_config ⟨some s⟩ q = acceptancePolicy q ∧
    (acceptancePolicy q = true →
      handle_validation (.ok ⟨some s⟩) q =
        { code := 200
          headers := [ctJson]
          body := some [("status", .str "success"),
                        ("message", .str "Configuration validation passed"),
                        ("configVersion", .str s)] }) ∧
    (acceptancePolicy q = false →
      handle_validation (.ok ⟨some s⟩) q =
        { code := 400
          headers := [ctJson]
          body := some [("status", .str "failure"),
                        ("message", .str "Configuration validation failed"),
                        ("configVersion", .str s)] }) := by
  have hs : ¬ s = "" := by
    intro hs
    rw [hs] at h
    simp [String.length] at h
  have hv : validate_config ⟨some s⟩ q = acceptancePolicy q := by
    unfold validate_config
    simp only [Option.getD_some]
    rw [if_neg]
    push_neg
    exact ⟨hs, by omega⟩
  refine ⟨hv, fun hp => ?_, fun hp => ?_⟩ <;>
    simp [handle_validation, hv, hp]

/-- Witness for C5: the end-to-end scenario `{"configVersion":"v1.2.3"}`
with a draw the acceptance policy passes. -/
theorem validate_longVersion_matchesPolicy_witness :
    validate_config ⟨some "v1.2.3"⟩ 0 = acceptancePolicy 0 ∧
    (acceptancePolicy 0 = true →
      handle_validation (.ok ⟨some "v1.2.3"⟩) 0 =
        { code := 200
          headers := [ctJson]
          body := some [("status", .str "success"),
                        ("message", .str "Configuration validation passed"),
                        ("configVersion", .str "v1.2.3")] }) ∧
    (acceptancePolicy 0 = false →
      handle_validation (.ok ⟨some "v1.2.3"⟩) 0 =
        { code := 400
          headers := [ctJson]
          body := some [("status", .str "failure"),
                        ("message", .str "Configuration validation failed"),
                        ("configVersion", .str "v1.2.3")] }) :=
  validate_longVersion_matchesPolicy "v1.2.3" 0 (by decide)

/-- C4: whenever the delivery policy yields false, `/send-config` answers
500 with status `"failure"`, the message
`"Failed to send config to device {deviceId}"` and the deviceId; whenever
it yields true, 200 with status `"success"`, the deviceId and the
config name — a dispatch failure is a 500, never a client error. -/
theorem sendConfig_policy_decides_outcome (data : SendConfigPayload) (q : ℚ) :
    (deliveryPolicy q = true →
      handle_send_config (.ok data) q =
        { code := 200
          headers := [ctJson]
          body := some [("status", .str "success"),
                        ("message", .str ("Configuration sent to device " ++ data.deviceId.getD "unknown")),
                        ("deviceId", .str (data.deviceId.getD "unknown")),
                        ("configName", .str ((data.config.getD ⟨none⟩).name.getD "unknown"))] }) ∧
    (deliveryPolicy q = false →
      handle_send_config (.ok data) q =
        { code := 500
          headers := [ctJson]
          body := some [("status", .str "failure"),
                        ("message", .str ("Failed to send config to device " ++ data.deviceId.getD "unknown")),
                        ("deviceId", .str (data.deviceId.getD "unknown"))] }) := by
  refine ⟨fun hp => ?_, fun hp => ?_⟩ <;>
    simp [handle_send_config, send_config_to_device, hp]

/-- Witness for C4: the end-to-end scenario
`{"deviceId":"dev-42","config":{"name":"net-profile-1"}}` with a draw the
delivery policy rejects. -/
theorem sendConfig_policy_decides_outcome_witness :
    handle_send_config (.ok ⟨some "dev-42", some ⟨some "net-profile-1"⟩⟩) 1 =
      { code := 500
        headers := [ctJson]
        body := some [("status", .str "failure"),
                      ("message", .str "Failed to send config to device dev-42"),
                      ("deviceId", .str "dev-42")] } :=
  (sendConfig_policy_decides_outcome ⟨some "dev-42", some ⟨some "net-profile-1"⟩⟩ 1).2
    (by norm_num [deliveryPolicy])

/-- C10: the success/failure outcome of `/send-config` is independent of
the request body — any two parsed bodies under the same delivery-policy
draw get the same status code and status field — and a parsed body is
never rejected as a client error: the code is always 200 or 500. -/
theorem sendConfig_outcome_independent_of_body
    (d1 d2 : SendConfigPayload) (q : ℚ) :
    (handle_send_config (.ok d1) q).code = (handle_send_config (.ok d2) q).code ∧
    statusOf (handle_send_config (.ok d1) q) = statusOf (handle_send_config (.ok d2) q) ∧
    ((handle_send_config (.ok d1) q).code = 200 ∨
     (handle_send_config (.ok d1) q).code = 500) := by
  by_cases hp : deliveryPolicy q <;>
    simp [handle_send_config, send_config_to_device, hp, statusOf]

/-- C3: for every rolloutId and every choice of synthesis draws,
`/rollout-status` answers 200 with a record echoing the rolloutId, with
`totalSteps = 3`, `totalDevices = 10`, a phase among Progressing,
Completed and Paused, `currentStep ∈ [1, 3]` and
`completedDevices ∈ [1, 10]`. -/
theorem rolloutStatus_freshRecord_shape (rid : String) (pd sd dd : Nat) :
    (handle_rollout_status (.ok ⟨some rid⟩) pd sd dd).code = 200 ∧
    ∃ body, (handle_rollout_status (.ok ⟨some rid⟩) pd sd dd).body = some body ∧
      body.lookup "rolloutId" = some (.str rid) ∧
      body.lookup "totalSteps" = some (.int 3) ∧
      body.lookup "totalDevices" = some (.int 10) ∧
      (∃ ph, body.lookup "phase" = some (.str ph) ∧ ph ∈ phaseChoices) ∧
      (∃ n : ℤ, body.lookup "currentStep" = some (.int n) ∧ 1 ≤ n ∧ n ≤ 3) ∧
      (∃ m : ℤ, body.lookup "completedDevices" = some (.int m) ∧ 1 ≤ m ∧ m ≤ 10) := by
  refine ⟨rfl, get_rollout_status rid pd sd dd, rfl, ?_⟩
  refine ⟨rfl, rfl, rfl,
    ⟨pyChoice phaseChoices pd, rfl, pyChoice_phase_mem pd⟩,
    ⟨(randint 1 3 sd : ℤ), rfl, ?_, ?_⟩,
    ⟨(randint 1 10 dd : ℤ), rfl, ?_, ?_⟩⟩
  · exact_mod_cast randint_lower 1 3 sd
  · exact_mod_cast randint_upper 1 3 sd (by omega)
  · exact_mod_cast randint_lower 1 10 dd
  · exact_mod_cast randint_upper 1 10 dd (by omega)

/-- C9: every 200 response of `/rollout-status` carries a `message` field
equal to `"Rollout {rolloutId} is progressing"`, for every parsed body
and independently of the phase the draws pick — including Completed and
Paused. -/
theorem rolloutStatus_message_always_progressing
    (data : RolloutStatusPayload) (pd sd dd : Nat) :
    (handle_rollout_status (.ok data) pd sd dd).code = 200 ∧
    ((handle_rollout_status (.ok data) pd sd dd).body.getD []).lookup "message" =
      some (.str ("Rollout " ++ data.rolloutId.getD "unknown" ++ " is progressing")) :=
  ⟨rfl, rfl⟩

/-- C2 counterexample: `get_rollout_status` draws fresh random values on
every call, so two consecutive calls for the same rolloutId with no
intervening write can return different records — here the phase draw
moves from 0 (Progressing) to 1 (Completed). -/
theorem getStatus_not_idempotent :
    get_rollout_status "r-1" 0 0 0 ≠ get_rollout_status "r-1" 1 0 0 := by
  decide

/-- C2 amended: the record returned by `get_rollout_status` is a pure
function of the rolloutId and the three synthesis draws; across calls
with arbitrary draws only the `rolloutId`, `totalSteps`, `totalDevices`
and `message` fields are guaranteed identical, while `phase`,
`currentStep` and `completedDevices` follow the fresh draws. -/
theorem getStatus_deterministic_fields (rid : String)
    (p1 s1 d1 p2 s2 d2 : Nat) :
    (get_rollout_status rid p1 s1 d1).lookup "rolloutId" =
      (get_rollout_status rid p2 s2 d2).lookup "rolloutId" ∧
    (get_rollout_status rid p1 s1 d1).lookup "totalSteps" =
      (get_rollout_status rid p2 s2 d2).lookup "totalSteps" ∧
    (get_rollout_status rid p1 s1 d1).lookup "totalDevices" =
      (get_rollout_status rid p2 s2 d2).lookup "totalDevices" ∧
    (get_rollout_status rid p1 s1 d1).lookup "message" =
      (get_rollout_status rid p2 s2 d2).lookup "message" ∧
    (get_rollout_status rid p1 s1 d1).lookup "phase" =
      some (.str (pyChoice phaseChoices p1)) ∧
    (get_rollout_status rid p1 s1 d1).lookup "currentStep" =
      some (.int (randint 1 3 s1)) ∧
    (get_rollout_status rid p1 s1 d1).lookup "completedDevices" =
      some (.int (randint 1 10 d1)) :=
  ⟨rfl, rfl, rfl, rfl, rfl, rfl, rfl⟩

/-- C6 counterexample: the 200 response of `/rollout-status` has the
synthesized record as its body, and that record carries no `status`
field at all. -/
theorem rolloutStatus_success_lacks_status_field :
    statusOf (handle_rollout_status (.ok ⟨some "r-1"⟩) 0 0 0) = none := by
  decide

/-- C6 amended: every handler is total and always emits a structured JSON
body; the `/validate` and `/send-config` bodies always carry a `status`
field among `success`, `failure` and `error`, and so does the
`/rollout-status` fault path — but the `/rollout-status` success body is
the rollout record, which has no `status` field. -/
theorem handlers_always_emit_structured_json
    (vb : Except String ValidatePayload) (q1 : ℚ)
    (sb : Except String SendConfigPayload) (q2 : ℚ)
    (rb : Except String RolloutStatusPayload) (pd sd dd : Nat)
    (e : String) (data : RolloutStatusPayload) :
    (handle_validation vb q1).body.isSome = true ∧
    (statusOf (handle_validation vb q1) = some (.str "success") ∨
     statusOf (handle_validation vb q1) = some (.str "failure") ∨
     statusOf (handle_validation vb q1) = some (.str "error")) ∧
    (handle_send_config sb q2).body.isSome = true ∧
    (statusOf (handle_send_config sb q2) = some (.str "success") ∨
     statusOf (handle_send_config sb q2) = some (.str "failure") ∨
     statusOf (handle_send_config sb q2) = some (.str "error")) ∧
    (handle_rollout_status rb pd sd dd).body.isSome = true ∧
    statusOf (handle_rollout_status (.error e) pd sd dd) = some (.str "error") ∧
    statusOf (handle_rollout_status (.ok data) pd sd dd) = none := by
  refine ⟨?_, ?_, ?_, ?_, ?_, rfl, rfl⟩
  · cases vb with
    | error e1 => rfl
    | ok d0 => by_cases h : validate_config d0 q1 <;> simp [handle_validation, h]
  · cases vb with
    | error e1 => exact Or.inr (Or.inr rfl)
    | ok d0 =>
      by_cases h : validate_config d0 q1
      · exact Or.inl (by simp [handle_validation, h, statusOf, List.lookup])
      · exact Or.inr (Or.inl (by simp [handle_validation, h, statusOf, List.lookup]))
  · cases sb with
    | error e1 => rfl
    | ok d0 =>
      by_cases h : send_config_to_device (d0.deviceId.getD "unknown")
          (d0.config.getD ⟨none⟩) q2 <;>
        simp [handle_send_config, h]
  · cases sb with
    | error e1 => exact Or.inr (Or.inr rfl)
    | ok d0 =>
      by_cases h : send_config_to_device (d0.deviceId.getD "unknown")
          (d0.config.getD ⟨none⟩) q2
      · exact Or.inl (by simp [handle_send_config, h, statusOf, List.lookup])
      · exact Or.inr (Or.inl (by simp [handle_send_config, h, statusOf, List.lookup]))
  · cases rb with
    | error e1 => rfl
    | ok d0 => rfl

/-- C8: a request whose (method, path) is not among the five recognized
endpoints gets a 404 with no headers and an empty body, and every
response on a recognized endpoint carries the
`Content-type: application/json` header. -/
theorem routing_404_and_content_type (m : Method) (path : String)
    (vb : Except String ValidatePayload) (sb : Except String SendConfigPayload)
    (rb : Except String RolloutStatusPayload) (d : Draws) :
    (¬ recognized m path →
      handle_request m path vb sb rb d = { code := 404, headers := [], body := none }) ∧
    (recognized m path →
      ctJson ∈ (handle_request m path vb sb rb d).headers) := by
  constructor
  · intro h
    cases m with
    | GET =>
      have h1 : path ≠ "/health" := fun hh => h (Or.inl ⟨rfl, Or.inl hh⟩)
      have h2 : path ≠ "/metrics" := fun hh => h (Or.inl ⟨rfl, Or.inr hh⟩)
      simp [handle_request, do_GET, h1, h2, notFound]
    | POST =>
      have h1 : path ≠ "/validate" := fun hh => h (Or.inr ⟨rfl, Or.inl hh⟩)
      have h2 : path ≠ "/send-config" := fun hh => h (Or.inr ⟨rfl, Or.inr (Or.inl hh)⟩)
      have h3 : path ≠ "/rollout-status" := fun hh => h (Or.inr ⟨rfl, Or.inr (Or.inr hh)⟩)
      simp [handle_request, do_POST, h1, h2, h3, notFound]
  · intro h
    rcases h with ⟨hm, hp | hp⟩ | ⟨hm, hp | hp | hp⟩ <;> subst hm <;> subst hp
    · simp [handle_request, do_GET]
    · simp [handle_request, do_GET]
    · simp [handle_request, do_POST, handle_validation_headers]
    · simp [handle_request, do_POST, handle_send_config_headers]
    · simp [handle_request, do_POST, handle_rollout_status_headers]

/-- Witness for C8: `GET /unknown-path` gets the empty 404 and
`GET /health` carries the JSON content-type header. -/
theorem routing_404_and_content_type_witness :
    handle_request .GET "/unknown-path" (.ok ⟨none⟩) (.ok ⟨none, none⟩)
        (.ok ⟨none⟩) ⟨0, 0, 0, 0, 0, 0, 0, 0, 0, 0, 0, 0⟩ =
      { code := 404, headers := [], body := none } ∧
    ctJson ∈ (handle_request .GET "/health" (.ok ⟨none⟩) (.ok ⟨none, none⟩)
        (.ok ⟨none⟩) ⟨0, 0, 0, 0, 0, 0, 0, 0, 0, 0, 0, 0⟩).headers :=
  ⟨(routing_404_and_content_type .GET "/unknown-path" (.ok ⟨none⟩) (.ok ⟨none, none⟩)
      (.ok ⟨none⟩) ⟨0, 0, 0, 0, 0, 0, 0, 0, 0, 0, 0, 0⟩).1 (by decide),
   (routing_404_and_content_type .GET "/health" (.ok ⟨none⟩) (.ok ⟨none, none⟩)
      (.ok ⟨none⟩) ⟨0, 0, 0, 0, 0, 0, 0, 0, 0, 0, 0, 0⟩).2 (by decide)⟩

/-- One `recordDispatch` step preserves the tracker invariant, never
decreases the device and step counters, and leaves the totals
untouched. -/
theorem recordDispatch_step (r : RolloutRecord) (d : DispatchResult)
    (h : TrackerInv r) :
    TrackerInv (recordDispatch r d) ∧
    r.completedDevices ≤ (recordDispatch r d).completedDevices ∧
    r.currentStep ≤ (recordDispatch r d).currentStep ∧
    (recordDispatch r d).totalSteps = r.totalSteps ∧
    (recordDispatch r d).totalDevices = r.totalDevices := by
  obtain ⟨hstep, hcompl⟩ := h
  unfold recordDispatch
  by_cases hc : r.phase = Phase.Completed
  · rw [if_pos hc]
    exact ⟨⟨hstep, hcompl⟩, le_refl _, le_refl _, rfl, rfl⟩
  · rw [if_neg hc]
    set cd := if d.delivered then r.completedDevices + 1 else r.completedDevices with hcd
    have hcd_ge : r.completedDevices ≤ cd := by
      rw [hcd]; split <;> omega
    by_cases hdone : r.currentStep = r.totalSteps ∧ r.totalDevices ≤ cd
    · rw [if_pos hdone]
      exact ⟨⟨hstep, fun _ => hdone⟩, hcd_ge, le_refl _, rfl, rfl⟩
    · rw [if_neg hdone]
      by_cases hadv : stepThreshold r ≤ cd ∧ r.currentStep < r.totalSteps
      · rw [if_pos hadv]
        refine ⟨⟨?_, fun hp => absurd hp hc⟩, hcd_ge, ?_, rfl, rfl⟩
        · show r.currentStep + 1 ≤ r.totalSteps
          omega
        · show r.currentStep ≤ r.currentStep + 1
          omega
      · rw [if_neg hadv]
        exact ⟨⟨hstep, fun hp => absurd hp hc⟩, hcd_ge, le_refl _, rfl, rfl⟩

/-- C7: along any sequence of `recordDispatch` calls starting from a
well-formed record, `completedDevices` and `currentStep` never decrease,
`currentStep` never exceeds `totalSteps`, and the phase is `Completed`
only with `currentStep = totalSteps` and all devices accounted for. -/
theorem recordDispatch_sequence_invariants (r : RolloutRecord)
    (ds : List DispatchResult) (h : TrackerInv r) :
    r.completedDevices ≤ (List.foldl recordDispatch r ds).completedDevices ∧
    r.currentStep ≤ (List.foldl recordDispatch r ds).currentStep ∧
    (List.foldl recordDispatch r ds).currentStep ≤
      (List.foldl recordDispatch r ds).totalSteps ∧
    ((List.foldl recordDispatch r ds).phase = Phase.Completed →
      (List.foldl recordDispatch r ds).currentStep =
        (List.foldl recordDispatch r ds).totalSteps ∧
      (List.foldl recordDispatch r ds).totalDevices ≤
        (List.foldl recordDispatch r ds).completedDevices) := by
  induction ds generalizing r with
  | nil => exact ⟨le_refl _, le_refl _, h.1, h.2⟩
  | cons d ds ih =>
    simp only [List.foldl_cons]
    obtain ⟨hinv, hcd, hcs, _, _⟩ := recordDispatch_step r d h
    obtain ⟨icd, ics, its, icompl⟩ := ih (recordDispatch r d) hinv
    exact ⟨le_trans hcd icd, le_trans hcs ics, its, icompl⟩

/-- Witness for C7: a fresh three-step, ten-device rollout takes two
dispatch outcomes (one delivered, one not). -/
theorem recordDispatch_sequence_invariants_witness :
    (RolloutRecord.mk "r-1" Phase.Progressing 1 3 0 10).completedDevices ≤
      (List.foldl recordDispatch (RolloutRecord.mk "r-1" Phase.Progressing 1 3 0 10)
        [DispatchResult.mk "dev-1" true "cfg", DispatchResult.mk "dev-2" false "cfg"]).completedDevices ∧
    (RolloutRecord.mk "r-1" Phase.Progressing 1 3 0 10).currentStep ≤
      (List.foldl recordDispatch (RolloutRecord.mk "r-1" Phase.Progressing 1 3 0 10)
        [DispatchResult.mk "dev-1" true "cfg", DispatchResult.mk "dev-2" false "cfg"]).currentStep ∧
    (List.foldl recordDispatch (RolloutRecord.mk "r-1" Phase.Progressing 1 3 0 10)
        [DispatchResult.mk "dev-1" true "cfg", DispatchResult.mk "dev-2" false "cfg"]).currentStep ≤
      (List.foldl recordDispatch (RolloutRecord.mk "r-1" Phase.Progressing 1 3 0 10)
        [DispatchResult.mk "dev-1" true "cfg", DispatchResult.mk "dev-2" false "cfg"]).totalSteps ∧
    ((List.foldl recordDispatch (RolloutRecord.mk "r-1" Phase.Progressing 1 3 0 10)
        [DispatchResult.mk "dev-1" true "cfg", DispatchResult.mk "dev-2" false "cfg"]).phase = Phase.Completed →
      (List.foldl recordDispatch (RolloutRecord.mk "r-1" Phase.Progressing 1 3 0 10)
        [DispatchResult.mk "dev-1" true "cfg", DispatchResult.mk "dev-2" false "cfg"]).currentStep =
        (List.foldl recordDispatch (RolloutRecord.mk "r-1" Phase.Progressing 1 3 0 10)
          [DispatchResult.mk "dev-1" true "cfg", DispatchResult.mk "dev-2" false "cfg"]).totalSteps ∧
      (List.foldl recordDispatch (RolloutRecord.mk "r-1" Phase.Progressing 1 3 0 10)
        [DispatchResult.mk "dev-1" true "cfg", DispatchResult.mk "dev-2" false "cfg"]).totalDevices ≤
        (List.foldl recordDispatch (RolloutRecord.mk "r-1" Phase.Progressing 1 3 0 10)
          [DispatchResult.mk "dev-1" true "cfg", DispatchResult.mk "dev-2" false "cfg"]).completedDevices) :=
  recordDispatch_sequence_invariants (RolloutRecord.mk "r-1" Phase.Progressing 1 3 0 10)
    [DispatchResult.mk "dev-1" true "cfg", DispatchResult.mk "dev-2" false "cfg"] (by decide)

end RolloutPoc
